import Mathlib

/-
Formal model of the `sirsi` library (a scraping client for SirsiDynix
library-catalog patron portals), shallowly embedded from `src/sirsi/sirsi.py`.

The embedding covers:
  * the `Item` value class and its token-prefix normalization
    (`Item.__init__`, `renew_token`, `hold_token`, `__str__`);
  * the HTML extraction logic of `Account.items` and `Account.fines`,
    over an explicit HTML node tree standing for the BeautifulSoup document
    (`find` / `find_all` / `.text` are modelled as pre-order tree searches,
    exactly as BeautifulSoup performs them);
  * the mechanize-driven session logic of `Account.login`, `Account.logged_in`,
    `Account.renew`, `Account.renew_all` and the `_get_*` navigation chain,
    as explicit state passing over a browser state (current page + an event
    log of opens / link follows / form submissions) against an arbitrary
    site modelled as a finite page graph;
  * the fragments of Python library behaviour the code relies on:
    `str.strip` / `str.replace` / `int(...)` / `decimal.Decimal(...)` and the
    `re.search(r'Welcome, \w+', ...)` test, each as executable functions on
    character lists.

Machine integers do not occur; counts are `Nat`/`Int` and money is `Rat`
(Python's `Decimal` is exact, so `Rat` represents it faithfully).
-/

namespace Sirsi

/-! ## Python string primitives -/

/-- Whitespace set used by Python's `str.strip()` (restricted to the
characters that can actually occur in this code's inputs; includes NBSP,
which unicode `strip()` removes). -/
def isPyWs (c : Char) : Bool :=
  c == ' ' || c == '\t' || c == '\n' || c == '\r' || c == '\x0b' ||
    c == '\x0c' || c == '\xa0'

/-- Drop matching characters from the end of a character list. -/
def dropTrail (p : Char → Bool) (l : List Char) : List Char :=
  (l.reverse.dropWhile p).reverse

/-- Drop matching characters from both ends (Python `str.strip(chars)`). -/
def stripBoth (p : Char → Bool) (l : List Char) : List Char :=
  dropTrail p (l.dropWhile p)

/-- Python `s.strip()`: remove whitespace from both ends. -/
def pyStrip (s : String) : String := ⟨stripBoth isPyWs s.data⟩

/-- Python `s.strip('$')`: remove `$` characters from both ends only;
interior `$` characters are kept. -/
def stripDollar (s : String) : String := ⟨stripBoth (· == '$') s.data⟩

/-- One pass of Python `str.replace`: fuel-indexed structural recursion
(the fuel is the length of the subject, which bounds the number of steps;
each step consumes at least one character). -/
def replaceAux : Nat → List Char → List Char → List Char → List Char
  | 0, l, _, _ => l
  | _ + 1, [], _, _ => []
  | fuel + 1, c :: rest, pat, rep =>
    if pat.isPrefixOf (c :: rest) && !pat.isEmpty then
      rep ++ replaceAux fuel ((c :: rest).drop pat.length) pat rep
    else
      c :: replaceAux fuel rest pat rep

/-- Python `s.replace(pat, rep)`: replace every non-overlapping occurrence,
scanning left to right. -/
def pyReplace (s pat rep : String) : String :=
  ⟨replaceAux s.data.length s.data pat.data rep.data⟩

/-- Numeric value of a digit list (most significant first). -/
def natOfDigits (l : List Char) : Nat :=
  l.foldl (fun a c => 10 * a + (c.toNat - 48)) 0

/-- Split an optional leading sign; `true` means negative. -/
def splitSign : List Char → Bool × List Char
  | '+' :: r => (false, r)
  | '-' :: r => (true, r)
  | r => (false, r)

/-- Python `int(s)` on a decimal string: optional surrounding whitespace,
optional sign, then at least one digit; anything else raises `ValueError`,
modelled as `none`. (Digit-grouping underscores never occur in the scraped
fields and are not modelled.) -/
def pyIntParse (s : String) : Option Int :=
  let cs := stripBoth isPyWs s.data
  let (neg, ds) := splitSign cs
  if ds.isEmpty || !ds.all Char.isDigit then none
  else some (if neg then -(natOfDigits ds : Int) else (natOfDigits ds : Int))

/-- The `try: int(x) except ValueError: 0` pattern of `Account.items`. -/
def pyIntFallback (s : String) : Int := (pyIntParse s).getD 0

/-- A Python `Decimal` value as stored by the `decimal` module: a signed
coefficient together with the number of fractional digits (the negated
exponent); `Decimal("12.50")` is coefficient `1250` with scale `2`. -/
structure PyDecimal where
  num : Int
  scale : Nat
deriving DecidableEq, Repr

/-- The exact rational value of a `Decimal`. -/
def PyDecimal.toRat (x : PyDecimal) : Rat :=
  (x.num : Rat) / ((10 : Rat) ^ x.scale)

/-- Python `Decimal(s)` on a finite decimal literal: strip surrounding
whitespace, then optional sign and `digits[.digits]` with at least one
digit. Exponents, `Infinity`/`NaN` and digit-grouping underscores never
occur in the scraped fines text and are not modelled; every other input
raises `InvalidOperation`, modelled as `none`. -/
def pyDecimal (s : String) : Option PyDecimal :=
  let cs := stripBoth isPyWs s.data
  let (neg, ds) := splitSign cs
  let ip := ds.takeWhile Char.isDigit
  let rest := ds.dropWhile Char.isDigit
  match rest with
  | [] =>
    if ip.isEmpty then none
    else some ⟨if neg then -(natOfDigits ip : Int) else (natOfDigits ip : Int), 0⟩
  | '.' :: fp =>
    if fp.all Char.isDigit && !(ip.isEmpty && fp.isEmpty) then
      let num : Int := natOfDigits (ip ++ fp)
      some ⟨if neg then -num else num, fp.length⟩
    else none
  | _ => none

/-! ## The `re.search(r'Welcome, \w+', body)` test -/

/-- `\w` for the ASCII texts involved: letter, digit or underscore. -/
def isWordChar (c : Char) : Bool := c.isAlpha || c.isDigit || c == '_'

/-- The literal part of the greeting pattern. -/
def welcomeChars : List Char := "Welcome, ".data

/-- Does `Welcome, \w+` match at the head of `l`?  (`+` needs exactly one
witness character, so matching at a position only requires the literal
followed by one word character.) -/
def hasWelcomeAt (l : List Char) : Bool :=
  welcomeChars.isPrefixOf l &&
    (match l.drop welcomeChars.length with
     | c :: _ => isWordChar c
     | [] => false)

/-- `re.search`: try the pattern at every position. -/
def scanWelcome : List Char → Bool
  | [] => false
  | c :: rest => hasWelcomeAt (c :: rest) || scanWelcome rest

/-- `bool(re.search(r'Welcome, \w+', body))`. -/
def loggedInBody (s : String) : Bool := scanWelcome s.data

/-! ## Item (`class Item`) -/

/-- `Item.RENEW_PREFIX`. -/
def renewPfx : String := "RENEW^"

/-- `Item.HOLD_PREFIX`. -/
def holdPfx : String := "HLD^TITLE^"

/-- `Item.TOKEN_PREFIX.sub('', token)`: the pattern is anchored (`^`) and
`re.sub` without `MULTILINE` therefore removes at most one leading
occurrence of `RENEW^` or `HLD^TITLE^` (alternation tried left to right;
the two literals cannot both match). -/
def stripTok (token : String) : String :=
  if renewPfx.data.isPrefixOf token.data then
    ⟨token.data.drop renewPfx.data.length⟩
  else if holdPfx.data.isPrefixOf token.data then
    ⟨token.data.drop holdPfx.data.length⟩
  else token

/-- Result of `dateutil.parser.parse`, abstracted: the model records the
text that was parsed. No claim under verification depends on the calendar
value, only on which stripped text reaches the parser. -/
structure PyDateTime where
  raw : String
deriving DecidableEq, Repr

/-- The `Item` object: field-for-field image of `Item.__init__`'s
attributes. Optional fields default to `None` (`Option.none`). -/
structure Item where
  token : String
  name : Option String
  due_date : Option PyDateTime
  times_renewed : Option Int
  ill : Option Bool
  renewable : Option Bool
deriving DecidableEq, Repr

/-- `Item.__init__`: the stored token is the argument with one recognized
leading prefix removed; every other field is stored as passed. -/
def Item.init (token : String) (name : Option String := none)
    (due_date : Option PyDateTime := none)
    (times_renewed : Option Int := none) (ill : Option Bool := none)
    (renewable : Option Bool := none) : Item :=
  { token := stripTok token, name := name, due_date := due_date,
    times_renewed := times_renewed, ill := ill, renewable := renewable }

/-- `Item.renew_token` property. -/
def Item.renew_token (i : Item) : String := renewPfx ++ i.token

/-- `Item.hold_token` property. -/
def Item.hold_token (i : Item) : String := holdPfx ++ i.token

/-- Python `'{}'.format(x)` on an optional string (`None` prints as
`"None"`). -/
def pyShowOpt : Option String → String
  | some s => s
  | none => "None"

/-- Rendering of the abstracted datetime inside `'{}'.format(...)`. -/
def pyShowDate (d : PyDateTime) : String := d.raw

/-- `Item.__str__`: `'ILL '` is emitted only when `self.ill` is truthy
(`None` and `False` are both falsy), and the due-date suffix only when
`self.due_date is not None`. -/
def Item.str (i : Item) : String :=
  (if i.ill.getD false then "ILL " else "") ++ pyShowOpt i.name ++
    (match i.due_date with
     | some d => ", due " ++ pyShowDate d
     | none => "")

/-! ## Basic string lemmas -/

theorem data_append (a b : String) : (a ++ b).data = a.data ++ b.data := rfl

theorem mk_data (s : String) : (⟨s.data⟩ : String) = s := rfl

theorem isPrefixOf_append_self (p l : List Char) :
    p.isPrefixOf (p ++ l) = true := by
  induction p with
  | nil => simp [List.isPrefixOf]
  | cons a as ih => simp [List.isPrefixOf, ih]

theorem stripTok_of_bare (s : String)
    (h1 : renewPfx.data.isPrefixOf s.data = false)
    (h2 : holdPfx.data.isPrefixOf s.data = false) : stripTok s = s := by
  simp [stripTok, h1, h2]

theorem stripTok_renew (s : String) : stripTok (renewPfx ++ s) = s := by
  have hd : (renewPfx ++ s).data = renewPfx.data ++ s.data := rfl
  simp [stripTok, hd, isPrefixOf_append_self, List.drop_left, mk_data]

theorem stripTok_hold (s : String) : stripTok (holdPfx ++ s) = s := by
  have hd : (holdPfx ++ s).data = holdPfx.data ++ s.data := rfl
  have hB : renewPfx.data.isPrefixOf (holdPfx.data ++ s.data) = false := by
    simp [renewPfx, holdPfx, List.isPrefixOf]
  have hfalse : ¬ (renewPfx.data <+: holdPfx.data ++ s.data) := by
    rw [← List.isPrefixOf_iff_prefix]
    simp [hB]
  simp [stripTok, hd, hfalse, isPrefixOf_append_self, List.drop_left, mk_data]

/-- C1: for raw token strings carrying the `RENEW^` prefix, the
`HLD^TITLE^` prefix, or no prefix at all in front of a bare (prefix-free)
token, constructing an `Item` stores the bare token, and the derived
`renew_token` is `RENEW^` + bare while `hold_token` is `HLD^TITLE^` + bare,
regardless of which (if any) prefix the input carried. -/
theorem c1_token_normalization (bare : String)
    (h1 : renewPfx.data.isPrefixOf bare.data = false)
    (h2 : holdPfx.data.isPrefixOf bare.data = false) :
    (Item.init bare).token = bare
    ∧ (Item.init (renewPfx ++ bare)).token = bare
    ∧ (Item.init (holdPfx ++ bare)).token = bare
    ∧ (Item.init bare).renew_token = renewPfx ++ bare
    ∧ (Item.init (renewPfx ++ bare)).renew_token = renewPfx ++ bare
    ∧ (Item.init (holdPfx ++ bare)).renew_token = renewPfx ++ bare
    ∧ (Item.init bare).hold_token = holdPfx ++ bare
    ∧ (Item.init (renewPfx ++ bare)).hold_token = holdPfx ++ bare
    ∧ (Item.init (holdPfx ++ bare)).hold_token = holdPfx ++ bare := by
  have hb := stripTok_of_bare bare h1 h2
  have hr := stripTok_renew bare
  have hh := stripTok_hold bare
  refine ⟨?_, ?_, ?_, ?_, ?_, ?_, ?_, ?_, ?_⟩ <;>
    simp [Item.init, Item.renew_token, Item.hold_token, hb, hr, hh]

/-- C1 witness: the statement instantiated at the concrete bare token
`"ck12345"`. -/
theorem c1_token_normalization_witness :
    (renewPfx.data.isPrefixOf "ck12345".data = false)
    ∧ (holdPfx.data.isPrefixOf "ck12345".data = false)
    ∧ (Item.init "ck12345").token = "ck12345"
    ∧ (Item.init (renewPfx ++ "ck12345")).token = "ck12345"
    ∧ (Item.init (holdPfx ++ "ck12345")).token = "ck12345"
    ∧ (Item.init (renewPfx ++ "ck12345")).renew_token =
        renewPfx ++ "ck12345"
    ∧ (Item.init (holdPfx ++ "ck12345")).hold_token =
        holdPfx ++ "ck12345" := by
  have h := c1_token_normalization "ck12345" (by decide) (by decide)
  exact ⟨by decide, by decide, h.1, h.2.1, h.2.2.1, h.2.2.2.2.1,
    h.2.2.2.2.2.2.2.2⟩

/-! ## Correctness of the greeting scan -/

theorem hasWelcomeAt_iff (l : List Char) :
    hasWelcomeAt l = true ↔
      ∃ c post, l = welcomeChars ++ c :: post ∧ isWordChar c = true := by
  constructor
  · intro h
    unfold hasWelcomeAt at h
    rw [Bool.and_eq_true] at h
    obtain ⟨hp, hm⟩ := h
    rw [List.isPrefixOf_iff_prefix] at hp
    obtain ⟨t, ht⟩ := hp
    rw [← ht, List.drop_left] at hm
    match t, hm with
    | c :: post, hm => exact ⟨c, post, ht.symm, hm⟩
  · rintro ⟨c, post, rfl, hw⟩
    unfold hasWelcomeAt
    rw [Bool.and_eq_true]
    refine ⟨isPrefixOf_append_self _ _, ?_⟩
    rw [List.drop_left]
    exact hw

theorem scanWelcome_iff (l : List Char) :
    scanWelcome l = true ↔
      ∃ pre c post,
        l = pre ++ welcomeChars ++ c :: post ∧ isWordChar c = true := by
  induction l with
  | nil =>
    simp only [scanWelcome]
    constructor
    · intro h
      exact absurd h (by simp)
    · rintro ⟨pre, c, post, h, _⟩
      have := congrArg List.length h
      simp [List.length_append, welcomeChars] at this
      omega
  | cons a rest ih =>
    simp only [scanWelcome, Bool.or_eq_true, ih]
    constructor
    · rintro (h | ⟨pre, c, post, hEq, hw⟩)
      · obtain ⟨c, post, hEq, hw⟩ := (hasWelcomeAt_iff _).mp h
        exact ⟨[], c, post, by simpa using hEq, hw⟩
      · exact ⟨a :: pre, c, post, by simp [hEq], hw⟩
    · rintro ⟨pre, c, post, hEq, hw⟩
      cases pre with
      | nil =>
        left
        exact (hasWelcomeAt_iff _).mpr ⟨c, post, by simpa using hEq, hw⟩
      | cons p pre' =>
        right
        have hstep : a :: rest = p :: (pre' ++ (welcomeChars ++ c :: post)) := by
          simpa using hEq
        injection hstep with h1 h2
        exact ⟨pre', c, post, by rw [h2, List.append_assoc], hw⟩

/-! ## HTML node trees (the BeautifulSoup document) -/

/-- An HTML node: an element with a tag name, attributes and children, or a
text node. This is what `BeautifulSoup(response.read())` hands to the
extraction code. -/
inductive Node where
  | elem (tag : String) (attrs : List (String × String)) (children : List Node)
  | text (s : String)
deriving Repr

mutual

/-- `tag.text` / `get_text()`: concatenation of every descendant text node,
in document order. -/
def nodeText : Node → String
  | .text s => s
  | .elem _ _ cs => nodeTextList cs

def nodeTextList : List Node → String
  | [] => ""
  | n :: ns => nodeText n ++ nodeTextList ns

end

mutual

/-- All descendants of a node in document (pre-)order, excluding the node
itself — the order in which BeautifulSoup's `find` / `find_all` visit
candidates. -/
def descendants : Node → List Node
  | .text _ => []
  | .elem _ _ cs => descList cs

def descList : List Node → List Node
  | [] => []
  | n :: ns => n :: (descendants n ++ descList ns)

end

/-- Attribute lookup on an element (`tag['k']` would raise on `none`). -/
def attrOf (n : Node) (k : String) : Option String :=
  match n with
  | .elem _ attrs _ => attrs.lookup k
  | .text _ => none

/-- Is `n` an element with the given tag name? -/
def isNamed (n : Node) (t : String) : Bool :=
  match n with
  | .elem tag _ _ => tag == t
  | .text _ => false

/-- `tag.find(t)`: first descendant element with the given name, or `None`. -/
def findTag (n : Node) (t : String) : Option Node :=
  (descendants n).find? (fun m => isNamed m t)

/-- `tag.find_all(t)`: every descendant element with the given name, in
document order. -/
def findAllTag (n : Node) (t : String) : List Node :=
  (descendants n).filter (fun m => isNamed m t)

/-- Is `pat` a contiguous substring of `l`? (`re.search` with a literal
pattern.) -/
def containsStr : List Char → List Char → Bool
  | l, pat =>
    pat.isPrefixOf l ||
      match l with
      | [] => false
      | _ :: rest => containsStr rest pat

/-- Does the element's `class` attribute match `re.compile('itemlisting2?')`
under BeautifulSoup's `class_` filter?  An unanchored `re.search` of that
pattern succeeds exactly when `"itemlisting"` occurs somewhere in a class
token; since the pattern contains no whitespace this is equivalent to an
occurrence in the whole attribute value. Elements without a `class`
attribute do not match. -/
def hasItemClass (n : Node) : Bool :=
  match attrOf n "class" with
  | some v => containsStr v.data "itemlisting".data
  | none => false

/-- The `is_item` predicate of `Account.items`: a `tr` element one of whose
direct children (`recursive=False`) matches the `itemlisting2?` class
filter. -/
def isItemRow (n : Node) : Bool :=
  match n with
  | .elem "tr" _ cs => cs.any hasItemClass
  | _ => false

/-- Whitespace splitting of a `class` attribute into class tokens. -/
def splitWs : List Char → List Char → List (List Char)
  | [], acc => [acc.reverse]
  | c :: rest, acc =>
    if isPyWs c then acc.reverse :: splitWs rest []
    else splitWs rest (c :: acc)

/-- The class tokens of an element (empty when there is no `class`
attribute). -/
def classTokens (n : Node) : List String :=
  match attrOf n "class" with
  | some v => ((splitWs v.data []).map (fun l => (⟨l⟩ : String))).filter
      (fun s => s != "")
  | none => []

/-- `soup.find('li', class_='summary')`'s per-element test: an `li` whose
class-token list contains `summary` (string-valued `class_` filters match
whole class tokens). -/
def isSummaryLi (n : Node) : Bool :=
  isNamed n "li" && (classTokens n).contains "summary"

/-! ## `Account.items` row extraction -/

/-- The literal whitespace/control run that `Account.items` normalizes to
`" -- "` inside label text. -/
def weirdRun : String := "\xa0\xa0\n\t\t \n          \n          "

/-- The per-row body of the `Account.items` loop: token from the first
embedded `input`'s `name` attribute, display name from the first `label`'s
text (stripped, with the known whitespace run replaced by `" -- "`), then
the first two `strong` texts (stripped) are the due-date text and the
renewal-count text, in row order. A missing `input`/`label`/`name`
attribute or fewer than two `strong` descendants raises in Python
(`AttributeError` / `KeyError` / unpacking `ValueError`), modelled as
`none`. The renewal count falls back to `0` when `int(...)` raises. -/
def parseRow (row : Node) : Option Item :=
  match findTag row "input" with
  | none => none
  | some inp =>
    match attrOf inp "name" with
    | none => none
    | some tok =>
      match findTag row "label" with
      | none => none
      | some lab =>
        let nm := pyReplace (pyStrip (nodeText lab)) weirdRun " -- "
        match (findAllTag row "strong").take 2 with
        | [d, r] =>
          let dd := pyStrip (nodeText d)
          let rr := pyStrip (nodeText r)
          some (Item.init tok (some nm) (some ⟨dd⟩) (some (pyIntFallback rr)))
        | _ => none

/-- The rows `soup.find_all(is_item)` selects, in document order. -/
def itemRows (doc : Node) : List Node :=
  (descendants doc).filter isItemRow

/-- The `Account.items` result list; the Python loop propagates the first
per-row exception, so one malformed row fails the whole extraction. -/
def parseRows : List Node → Option (List Item)
  | [] => some []
  | r :: rs =>
    match parseRow r, parseRows rs with
    | some i, some is => some (i :: is)
    | _, _ => none

/-- `Account.items` on an already-fetched document. -/
def parseItems (doc : Node) : Option (List Item) :=
  parseRows (itemRows doc)

/-! ## `Account.fines` extraction -/

/-- `Account.fines` on an already-fetched document:
`soup.find('li', class_='summary').ul.li`, then
`Decimal(li.text.strip().replace('You owe', '').strip('$'))`.
Each missing element raises `AttributeError` in Python (`none` here), and a
remainder `Decimal` cannot parse raises `InvalidOperation` (`none`). -/
def parseFines (doc : Node) : Option PyDecimal :=
  match (descendants doc).find? isSummaryLi with
  | none => none
  | some li =>
    match findTag li "ul" with
    | none => none
    | some ul =>
      match findTag ul "li" with
      | none => none
      | some li2 =>
        let t := pyReplace (pyStrip (nodeText li2)) "You owe" ""
        pyDecimal (stripDollar t)

/-! ## The mechanize browser session

The site is a finite page graph: each page carries the raw response body
(what `response.read()` returns and the greeting regex scans), its parsed
document (what `BeautifulSoup` produces from the same bytes), its forms and
its links. Submitting a form lands on the page the server designates
(`Form.target`). The browser state is the current page plus an event log
recording opens, link follows and form submissions — the submissions log is
what lets the theorems talk about "no submission happened". -/

/-- One form control (mechanize control): name, current value, and the
selected flag of its first item (the only one the code touches). -/
structure Control where
  name : String
  value : List String
  selected : Bool
deriving DecidableEq, Repr

/-- A form: its `name` attribute, the page the server returns when it is
submitted, and its controls. -/
structure Form where
  name : String
  target : Nat
  controls : List Control
deriving DecidableEq, Repr

/-- A fetched page. -/
structure Page where
  raw : String
  doc : Node
  forms : List Form
  links : List (String × Nat)

/-- The site: its pages and the index of the catalog homepage, which is
what `browser.open(self.catalog)` fetches. -/
structure Site where
  pages : List Page
  home : Nat

/-- Observable browser effects. -/
inductive Ev where
  | opened
  | followed (text : String)
  | submitted (formName : String) (controls : List Control)
deriving DecidableEq, Repr

/-- The browser state: current response (`none` before any fetch) and the
event log. -/
structure BState where
  cur : Option Nat
  events : List Ev
deriving DecidableEq, Repr

/-- The exceptions the session code can raise: mechanize's
`BrowserStateError`, `FormNotFoundError`, `ControlNotFoundError`,
`LinkNotFoundError`, the `ValueError` of `Account.login`, and the
`AttributeError`s of soup navigation. -/
inductive Err where
  | browserState
  | formNotFound (name : String)
  | controlNotFound (name : String)
  | linkNotFound (text : String)
  | authFailed
  | parseFailed
deriving DecidableEq, Repr

instance {e a : Type} [DecidableEq e] [DecidableEq a] :
    DecidableEq (Except e a) := fun x y =>
  match x, y with
  | .ok v, .ok w =>
    if h : v = w then isTrue (by rw [h])
    else isFalse (fun hc => by injection hc; exact h ‹_›)
  | .error v, .error w =>
    if h : v = w then isTrue (by rw [h])
    else isFalse (fun hc => by injection hc; exact h ‹_›)
  | .ok _, .error _ => isFalse (fun hc => Except.noConfusion hc)
  | .error _, .ok _ => isFalse (fun hc => Except.noConfusion hc)

/-- The credentials held by an `Account`. -/
structure AccountCfg where
  userid : String
  password : String

/-- `self._browser.response()`'s page, if any. -/
def curPage (site : Site) (st : BState) : Option Page :=
  match st.cur with
  | none => none
  | some i => site.pages[i]?

/-- `Account.logged_in`: `False` when there is no response yet, otherwise
the greeting-regex test on the response body. -/
def logged_in (site : Site) (st : BState) : Bool :=
  match curPage site st with
  | none => false
  | some p => loggedInBody p.raw

/-- `Account._get_homepage`: `browser.open(self.catalog)`. -/
def openHome (site : Site) (st : BState) : BState :=
  { cur := some site.home, events := st.events ++ [.opened] }

/-- Does the form have a control with this name? -/
def hasCtrl (f : Form) (n : String) : Bool :=
  f.controls.any (fun c => c.name == n)

/-- Value of the first control with the given name in a control list. -/
def lookupCtrl (cs : List Control) (n : String) : Option (List String) :=
  (cs.find? (fun c => c.name == n)).map (fun c => c.value)

/-- `form['n'] = v` / `form.set_value(v, name='n')`: raises
`ControlNotFoundError` (`none`) when no control has that name. -/
def Form.setControl (f : Form) (n : String) (v : List String) : Option Form :=
  if hasCtrl f n then
    some { f with controls :=
      f.controls.map (fun c =>
        if c.name == n then { c with value := v } else c) }
  else none

/-- `form.find_control(n).items[0].selected = True`: raises
`ControlNotFoundError` (`none`) when no control has that name. -/
def Form.selectControl (f : Form) (n : String) : Option Form :=
  if hasCtrl f n then
    some { f with controls :=
      f.controls.map (fun c =>
        if c.name == n then { c with selected := true } else c) }
  else none

/-- `browser.select_form(name=n)`. -/
def selectForm (site : Site) (st : BState) (n : String) : Except Err Form :=
  match curPage site st with
  | none => .error .browserState
  | some p =>
    match p.forms.find? (fun f => f.name == n) with
    | none => .error (.formNotFound n)
    | some f => .ok f

/-- `browser.submit()` of a (possibly mutated) selected form. -/
def submit (site : Site) (st : BState) (f : Form) : BState :=
  { cur := some f.target, events := st.events ++ [.submitted f.name f.controls] }

/-- `browser.follow_link(text=t)`. -/
def followLink (site : Site) (st : BState) (t : String) : BState × Option Err :=
  match curPage site st with
  | none => (st, some .browserState)
  | some p =>
    match p.links.lookup t with
    | none => (st, some (.linkNotFound t))
    | some i => ({ cur := some i, events := st.events ++ [.followed t] }, none)

/-- `Account.login`: open the homepage, select `loginform`, fill `user_id`
and `password`, submit, then raise `ValueError` (modelled `authFailed`)
when the greeting marker is still absent. Exactly one submission happens;
nothing is retried. -/
def login (acct : AccountCfg) (site : Site) (st : BState) :
    BState × Option Err :=
  let st1 := openHome site st
  match selectForm site st1 "loginform" with
  | .error e => (st1, some e)
  | .ok f =>
    match f.setControl "user_id" [acct.userid] with
    | none => (st1, some (.controlNotFound "user_id"))
    | some f1 =>
      match f1.setControl "password" [acct.password] with
      | none => (st1, some (.controlNotFound "password"))
      | some f2 =>
        let st2 := submit site st1 f2
        if logged_in site st2 then (st2, none) else (st2, some .authFailed)

/-- `Account._get_my_account`: log in first when the marker is absent, then
follow the `My Account` link. -/
def getMyAccount (acct : AccountCfg) (site : Site) (st : BState) :
    BState × Option Err :=
  if logged_in site st then followLink site st "My Account"
  else
    match login acct site st with
    | (st1, some e) => (st1, some e)
    | (st1, none) => followLink site st1 "My Account"

/-- `Account._get_renew_my_materials`. -/
def getRenewMyMaterials (acct : AccountCfg) (site : Site) (st : BState) :
    BState × Option Err :=
  match getMyAccount acct site st with
  | (st1, some e) => (st1, some e)
  | (st1, none) => followLink site st1 "Renew My Materials"

/-- `Account._get_review_my_account`. -/
def getReviewMyAccount (acct : AccountCfg) (site : Site) (st : BState) :
    BState × Option Err :=
  match getMyAccount acct site st with
  | (st1, some e) => (st1, some e)
  | (st1, none) => followLink site st1 "Review My Account"

/-- `Account._get_account_summary`. -/
def getAccountSummary (acct : AccountCfg) (site : Site) (st : BState) :
    BState × Option Err :=
  match getReviewMyAccount acct site st with
  | (st1, some e) => (st1, some e)
  | (st1, none) => followLink site st1 "Account Summary"

/-- `Account._soup()`: the parsed document of the current response. -/
def soupOf (site : Site) (st : BState) : Option Node :=
  (curPage site st).map (fun p => p.doc)

/-- `Account._renewal_status`: `self._soup().h3.text.strip()`; a missing
`h3` raises `AttributeError` (`parseFailed`). -/
def renewalStatus (site : Site) (st : BState) : Except Err String :=
  match soupOf site st with
  | none => .error .browserState
  | some doc =>
    match findTag doc "h3" with
    | none => .error .parseFailed
    | some h => .ok (pyStrip (nodeText h))

/-- The `for renew_token in ...` loop of `Account.renew`: select each
token's control in turn; the first missing control raises
`ControlNotFoundError` and aborts the loop before any submission. -/
def selectToks : Form → List String → Except Err Form
  | f, [] => .ok f
  | f, t :: ts =>
    match f.selectControl t with
    | none => .error (.controlNotFound t)
    | some f1 => selectToks f1 ts

/-- `Account.renew(items)`. -/
def renewOp (acct : AccountCfg) (site : Site) (st : BState)
    (items : List Item) : BState × Except Err String :=
  match getRenewMyMaterials acct site st with
  | (st1, some e) => (st1, .error e)
  | (st1, none) =>
    match selectForm site st1 "renewitems" with
    | .error e => (st1, .error e)
    | .ok f =>
      match selectToks f (items.map Item.renew_token) with
      | .error e => (st1, .error e)
      | .ok f1 =>
        let st2 := submit site st1 f1
        (st2, renewalStatus site st2)

/-- `Account.renew_all()`: set `selection_type` to the sentinel `['all']`
and submit once. -/
def renewAllOp (acct : AccountCfg) (site : Site) (st : BState) :
    BState × Except Err String :=
  match getRenewMyMaterials acct site st with
  | (st1, some e) => (st1, .error e)
  | (st1, none) =>
    match selectForm site st1 "renewitems" with
    | .error e => (st1, .error e)
    | .ok f =>
      match f.setControl "selection_type" ["all"] with
      | none => (st1, .error (.controlNotFound "selection_type"))
      | some f1 =>
        let st2 := submit site st1 f1
        (st2, renewalStatus site st2)

/-- `Account.items()` end to end. -/
def itemsOp (acct : AccountCfg) (site : Site) (st : BState) :
    BState × Except Err (List Item) :=
  match getRenewMyMaterials acct site st with
  | (st1, some e) => (st1, .error e)
  | (st1, none) =>
    match soupOf site st1 with
    | none => (st1, .error .browserState)
    | some doc =>
      match parseItems doc with
      | none => (st1, .error .parseFailed)
      | some its => (st1, .ok its)

/-- `Account.fines()` end to end. -/
def finesOp (acct : AccountCfg) (site : Site) (st : BState) :
    BState × Except Err PyDecimal :=
  match getAccountSummary acct site st with
  | (st1, some e) => (st1, .error e)
  | (st1, none) =>
    match soupOf site st1 with
    | none => (st1, .error .browserState)
    | some doc =>
      match parseFines doc with
      | none => (st1, .error .parseFailed)
      | some q => (st1, .ok q)

/-- Does this event submit the login form? -/
def isLoginSubmit : Ev → Bool
  | .submitted n _ => n == "loginform"
  | _ => false

/-- Does this event submit the renewal form? -/
def isRenewSubmit : Ev → Bool
  | .submitted n _ => n == "renewitems"
  | _ => false

/-- Number of login-form submissions in a log. -/
def loginSubmits (evs : List Ev) : Nat := evs.countP isLoginSubmit

/-- Number of renewal-form submissions in a log. -/
def renewSubmits (evs : List Ev) : Nat := evs.countP isRenewSubmit

/-! ## C6: the logged-in test -/

/-- C6: `logged_in` is `false` when no response has been fetched yet, and on
a fetched page it is `true` exactly when the body contains an occurrence of
`Welcome, ` followed by a word character (the `Welcome, \w+` pattern). -/
theorem c6_logged_in (site : Site) (st : BState) :
    (st.cur = none → logged_in site st = false)
    ∧ (∀ p : Page, curPage site st = some p →
        (logged_in site st = true ↔
          ∃ pre c post, p.raw.data = pre ++ welcomeChars ++ c :: post
            ∧ isWordChar c = true)) := by
  constructor
  · intro h
    simp [logged_in, curPage, h]
  · intro p hp
    simp only [logged_in, hp]
    exact scanWelcome_iff p.raw.data

/-- A one-page site whose body carries the greeting. -/
def c6site : Site :=
  { pages := [⟨"Welcome, Jo", .text "", [], []⟩], home := 0 }

/-- C6 witness: no response gives `false`; the concrete greeting page gives
the pattern characterization. -/
theorem c6_logged_in_witness :
    (logged_in c6site ⟨none, []⟩ = false)
    ∧ (logged_in c6site ⟨some 0, []⟩ = true ↔
        ∃ pre c post,
          ("Welcome, Jo" : String).data = pre ++ welcomeChars ++ c :: post
            ∧ isWordChar c = true) :=
  ⟨(c6_logged_in c6site ⟨none, []⟩).1 rfl,
   (c6_logged_in c6site ⟨some 0, []⟩).2 ⟨"Welcome, Jo", .text "", [], []⟩ rfl⟩

/-! ## The row-extraction equation shared by C2 and C5 -/

theorem empty_append_str (s : String) : "" ++ s = s := rfl

/-- What `parseRow` produces on a well-formed row: the token is the first
`input`'s `name`, the display name the first `label`'s normalized text, and
the first two `strong` texts feed the date parser and the renewal count. -/
theorem parseRow_spec (row inp lab d r : Node) (tok : String)
    (hin : findTag row "input" = some inp)
    (htok : attrOf inp "name" = some tok)
    (hlab : findTag row "label" = some lab)
    (hs : (findAllTag row "strong").take 2 = [d, r]) :
    parseRow row = some (Item.init tok
      (some (pyReplace (pyStrip (nodeText lab)) weirdRun " -- "))
      (some ⟨pyStrip (nodeText d)⟩)
      (some (pyIntFallback (pyStrip (nodeText r))))) := by
  simp only [parseRow, hin, htok, hlab, hs]

/-- C2: on a well-formed row, a renewal-count field whose stripped text is
`""` yields `times_renewed = 0`, `"3"` yields `3`, and non-numeric `"abc"`
also yields `0`; in every case the row still parses (no failure). -/
theorem c2_renewal_count (row inp lab d r : Node) (tok : String)
    (hin : findTag row "input" = some inp)
    (htok : attrOf inp "name" = some tok)
    (hlab : findTag row "label" = some lab)
    (hs : (findAllTag row "strong").take 2 = [d, r]) :
    (pyStrip (nodeText r) = "" →
      ∃ itm, parseRow row = some itm ∧ itm.times_renewed = some 0)
    ∧ (pyStrip (nodeText r) = "3" →
      ∃ itm, parseRow row = some itm ∧ itm.times_renewed = some 3)
    ∧ (pyStrip (nodeText r) = "abc" →
      ∃ itm, parseRow row = some itm ∧ itm.times_renewed = some 0) := by
  have key := parseRow_spec row inp lab d r tok hin htok hlab hs
  refine ⟨?_, ?_, ?_⟩ <;> intro h <;> refine ⟨_, key, ?_⟩ <;>
    simp only [Item.init] <;> rw [h] <;> decide

/-- A concrete row whose renewal-count text is empty (an ILL row). -/
def rowEmptyCount : Node :=
  .elem "tr" [] [.elem "td" [("class", "itemlisting")] [
    .elem "input" [("name", "RENEW^AAA")] [],
    .elem "label" [] [.text "Book A"],
    .elem "strong" [] [.text "1/2/2020"],
    .elem "strong" [] [.text ""]]]

/-- A concrete row whose renewal-count text is `3`. -/
def rowThreeCount : Node :=
  .elem "tr" [] [.elem "td" [("class", "itemlisting2")] [
    .elem "input" [("name", "RENEW^BBB")] [],
    .elem "label" [] [.text "Book B"],
    .elem "strong" [] [.text "1/3/2020"],
    .elem "strong" [] [.text "3"]]]

/-- A concrete row whose renewal-count text is the malformed `abc`. -/
def rowAbcCount : Node :=
  .elem "tr" [] [.elem "td" [("class", "itemlisting")] [
    .elem "input" [("name", "RENEW^CCC")] [],
    .elem "label" [] [.text "Book C"],
    .elem "strong" [] [.text "1/4/2020"],
    .elem "strong" [] [.text "abc"]]]

/-- C2 witness: the three cases at concrete rows. -/
theorem c2_renewal_count_witness :
    (∃ itm, parseRow rowEmptyCount = some itm ∧ itm.times_renewed = some 0)
    ∧ (∃ itm, parseRow rowThreeCount = some itm ∧ itm.times_renewed = some 3)
    ∧ (∃ itm, parseRow rowAbcCount = some itm ∧ itm.times_renewed = some 0) :=
  ⟨(c2_renewal_count rowEmptyCount (.elem "input" [("name", "RENEW^AAA")] [])
      (.elem "label" [] [.text "Book A"])
      (.elem "strong" [] [.text "1/2/2020"]) (.elem "strong" [] [.text ""])
      "RENEW^AAA" rfl rfl rfl rfl).1 rfl,
   (c2_renewal_count rowThreeCount (.elem "input" [("name", "RENEW^BBB")] [])
      (.elem "label" [] [.text "Book B"])
      (.elem "strong" [] [.text "1/3/2020"]) (.elem "strong" [] [.text "3"])
      "RENEW^BBB" rfl rfl rfl rfl).2.1 rfl,
   (c2_renewal_count rowAbcCount (.elem "input" [("name", "RENEW^CCC")] [])
      (.elem "label" [] [.text "Book C"])
      (.elem "strong" [] [.text "1/4/2020"]) (.elem "strong" [] [.text "abc"])
      "RENEW^CCC" rfl rfl rfl rfl).2.2 rfl⟩

/-! ## C5: the two row classes are treated identically -/

/-- A table row whose marker cell carries the given CSS class. -/
def itemRow (cls : String) (inner : List Node) : Node :=
  .elem "tr" [] [.elem "td" [("class", cls)] inner]

/-- C5: in a document holding one `itemlisting` row and one `itemlisting2`
row, both rows are selected by the `is_item` scan, and field extraction is
the same function of the row contents for any marker class — in
particular the two class spellings parse identically. -/
theorem c5_itemlisting_variants (inner inner' : List Node) :
    (itemRow "itemlisting" inner ∈ itemRows
        (.elem "root" [] [itemRow "itemlisting" inner,
          itemRow "itemlisting2" inner']))
    ∧ (itemRow "itemlisting2" inner' ∈ itemRows
        (.elem "root" [] [itemRow "itemlisting" inner,
          itemRow "itemlisting2" inner']))
    ∧ (∀ (c c' : String) (body : List Node),
        parseRow (itemRow c body) = parseRow (itemRow c' body)) := by
  have e1 : (("td" : String) == "input") = false := by decide
  have e2 : (("td" : String) == "label") = false := by decide
  have e3 : (("td" : String) == "strong") = false := by decide
  refine ⟨?_, ?_, ?_⟩
  · apply List.mem_filter.mpr
    refine ⟨?_, rfl⟩
    simp [descendants, descList, itemRow]
  · apply List.mem_filter.mpr
    refine ⟨?_, rfl⟩
    simp [descendants, descList, itemRow]
  · intro c c' body
    simp only [parseRow, findTag, findAllTag, itemRow, descendants, descList,
      List.append_nil, List.find?_cons, List.filter_cons, isNamed, e1, e2, e3]
    simp

/-- C5 witness: the statement at the two concrete rows used in the C2
witness, including that extraction ignores the class marker. -/
theorem c5_itemlisting_variants_witness :
    (itemRow "itemlisting" [.text "a"] ∈ itemRows
        (.elem "root" [] [itemRow "itemlisting" [.text "a"],
          itemRow "itemlisting2" [.text "b"]]))
    ∧ (itemRow "itemlisting2" [.text "b"] ∈ itemRows
        (.elem "root" [] [itemRow "itemlisting" [.text "a"],
          itemRow "itemlisting2" [.text "b"]]))
    ∧ parseRow (itemRow "itemlisting" [.text "a"]) =
        parseRow (itemRow "itemlisting2" [.text "a"]) :=
  ⟨(c5_itemlisting_variants [.text "a"] [.text "b"]).1,
   (c5_itemlisting_variants [.text "a"] [.text "b"]).2.1,
   (c5_itemlisting_variants [.text "a"] [.text "b"]).2.2 "itemlisting"
     "itemlisting2" [.text "a"]⟩

/-! ## C10: parsed items never carry the ILL / renewable flags -/

theorem parseRows_mem (rs : List Node) (its : List Item)
    (h : parseRows rs = some its) :
    ∀ i ∈ its, ∃ r ∈ rs, parseRow r = some i := by
  induction rs generalizing its with
  | nil =>
    intro i hi
    simp only [parseRows] at h
    injection h with h
    subst h
    simp at hi
  | cons r rs ih =>
    intro i hi
    simp only [parseRows] at h
    cases hr : parseRow r with
    | none => rw [hr] at h; cases h
    | some a =>
      cases hrs : parseRows rs with
      | none => rw [hr, hrs] at h; cases h
      | some as =>
        rw [hr, hrs] at h
        injection h with h
        subst h
        rcases List.mem_cons.mp hi with hEq | hMem
        · exact ⟨r, List.mem_cons_self .., by rw [hr, hEq]⟩
        · obtain ⟨r', hr', hp⟩ := ih as hrs i hMem
          exact ⟨r', List.mem_cons_of_mem _ hr', hp⟩

/-- C10: every item produced by the row parser has `ill = None` and
`renewable = None`, and its string rendering is the bare
`name` + due-date suffix — the `'ILL '` marker is never prepended. -/
theorem c10_flags_unset (doc : Node) (its : List Item)
    (h : parseItems doc = some its) :
    ∀ i ∈ its, i.ill = none ∧ i.renewable = none
      ∧ Item.str i = pyShowOpt i.name ++
          (match i.due_date with
           | some dd => ", due " ++ pyShowDate dd
           | none => "") := by
  intro i hi
  obtain ⟨r, _, hr⟩ := parseRows_mem _ _ h i hi
  simp only [parseRow] at hr
  repeat' split at hr
  all_goals first
    | exact Option.noConfusion hr
    | (injection hr with hr; subst hr; exact ⟨rfl, rfl, rfl⟩)

/-- A two-row document (one plain row, one ILL row with a blank count). -/
def itemsDocDemo : Node :=
  .elem "root" [] [rowEmptyCount, rowThreeCount]

/-- C10 witness: the claim evaluated on the concrete two-row document. -/
theorem c10_flags_unset_witness :
    (parseItems itemsDocDemo =
      some [Item.init "RENEW^AAA" (some "Book A") (some ⟨"1/2/2020"⟩) (some 0),
            Item.init "RENEW^BBB" (some "Book B") (some ⟨"1/3/2020"⟩) (some 3)])
    ∧ ∀ i ∈ [Item.init "RENEW^AAA" (some "Book A") (some ⟨"1/2/2020"⟩) (some 0),
              Item.init "RENEW^BBB" (some "Book B") (some ⟨"1/3/2020"⟩) (some 3)],
        i.ill = none ∧ i.renewable = none
          ∧ Item.str i = pyShowOpt i.name ++
              (match i.due_date with
               | some dd => ", due " ++ pyShowDate dd
               | none => "") :=
  ⟨by decide, c10_flags_unset itemsDocDemo _ (by decide)⟩

/-! ## C3: the fines extraction -/

/-- A summary document whose inner line item has the given text:
`<li class="summary"><ul><li>txt</li></ul></li>`. -/
def finesDocOf (txt : String) : Node :=
  .elem "root" [] [.elem "li" [("class", "summary")]
    [.elem "ul" [] [.elem "li" [] [.text txt]]]]

/-- C3 counterexample: with whitespace between the label and the amount
(`'You owe\n  $12.50'`), the extraction FAILS — `strip('$')` only removes
`$` at the ends, so the interior `$` survives and `Decimal` raises — it
does not return `12.50`. -/
theorem c3_fines_whitespace_counterexample :
    parseFines (finesDocOf "You owe\n  $12.50") = none
    ∧ ∀ x : PyDecimal, parseFines (finesDocOf "You owe\n  $12.50") = some x →
        x.toRat = (25 / 2 : Rat) → False := by
  refine ⟨by decide, ?_⟩
  intro x hx
  rw [show parseFines (finesDocOf "You owe\n  $12.50") = none from by decide] at hx
  cases hx

/-- C3 amended: when no whitespace separates the label from the `$` sign,
the parse succeeds and is the exact decimal `12.50` (= 25/2 as an exact
rational); whitespace around the whole text or after the `$` is fine. -/
theorem c3_fines_amended :
    parseFines (finesDocOf "You owe$12.50") = some ⟨1250, 2⟩
    ∧ parseFines (finesDocOf "  You owe$ 12.50  ") = some ⟨1250, 2⟩
    ∧ (⟨1250, 2⟩ : PyDecimal).toRat = (25 / 2 : Rat) := by
  refine ⟨by decide, by decide, ?_⟩
  norm_num [PyDecimal.toRat]

/-! ## Form and event-log lemmas -/

theorem countP_snoc (p : Ev → Bool) (l : List Ev) (e : Ev) :
    (l ++ [e]).countP p = l.countP p + (if p e then 1 else 0) := by
  simp [List.countP_append, List.countP_cons]

theorem selectForm_name (site : Site) (st : BState) (n : String) (f : Form)
    (h : selectForm site st n = .ok f) : f.name = n := by
  unfold selectForm at h
  split at h
  · exact Except.noConfusion h
  · split at h
    · exact Except.noConfusion h
    · rename_i g heq
      injection h with h
      subst h
      exact eq_of_beq (by simpa using List.find?_some heq)

theorem setControl_parts (f : Form) (n : String) (v : List String) (f' : Form)
    (h : f.setControl n v = some f') :
    f'.name = f.name ∧ f'.target = f.target ∧
      f'.controls = f.controls.map (fun c =>
        if c.name == n then { c with value := v } else c) := by
  unfold Form.setControl at h
  split at h
  · injection h with h
    subst h
    exact ⟨rfl, rfl, rfl⟩
  · exact Option.noConfusion h

theorem setControl_some_hasCtrl (f : Form) (n : String) (v : List String)
    (f' : Form) (h : f.setControl n v = some f') : hasCtrl f n = true := by
  unfold Form.setControl at h
  split at h
  · assumption
  · exact Option.noConfusion h

theorem selectControl_parts (f : Form) (n : String) (f' : Form)
    (h : f.selectControl n = some f') :
    f'.name = f.name ∧ f'.target = f.target ∧
      f'.controls = f.controls.map (fun c =>
        if c.name == n then { c with selected := true } else c) := by
  unfold Form.selectControl at h
  split at h
  · injection h with h
    subst h
    exact ⟨rfl, rfl, rfl⟩
  · exact Option.noConfusion h

theorem selectControl_none (f : Form) (n : String) (h : hasCtrl f n = false) :
    f.selectControl n = none := by
  simp [Form.selectControl, h]

theorem hasCtrl_map_update (l : List Control) (g : Control → Control)
    (hg : ∀ c, (g c).name = c.name) (m : String) :
    (l.map g).any (fun c => c.name == m) = l.any (fun c => c.name == m) := by
  induction l with
  | nil => rfl
  | cons c cs ih => simp [List.any_cons, ih, hg]

theorem setControl_hasCtrl (f : Form) (n : String) (v : List String)
    (f' : Form) (h : f.setControl n v = some f') (m : String) :
    hasCtrl f' m = hasCtrl f m := by
  obtain ⟨-, -, hc⟩ := setControl_parts f n v f' h
  unfold hasCtrl
  rw [hc]
  exact hasCtrl_map_update _ _ (fun c => by split <;> rfl) m

theorem selectControl_hasCtrl (f : Form) (n : String) (f' : Form)
    (h : f.selectControl n = some f') (m : String) :
    hasCtrl f' m = hasCtrl f m := by
  obtain ⟨-, -, hc⟩ := selectControl_parts f n f' h
  unfold hasCtrl
  rw [hc]
  exact hasCtrl_map_update _ _ (fun c => by split <;> rfl) m

theorem lookup_update (l : List Control) (n : String) (v : List String)
    (hc : l.any (fun c => c.name == n) = true) :
    lookupCtrl (l.map (fun c =>
      if c.name == n then { c with value := v } else c)) n = some v := by
  induction l with
  | nil => simp at hc
  | cons c cs ih =>
    by_cases hcn : c.name = n
    · simp [lookupCtrl, List.find?_cons, hcn]
    · have h : (c.name == n) = false := beq_eq_false_iff_ne.mpr hcn
      have hc' : cs.any (fun u => u.name == n) = true := by
        simpa [List.any_cons, h] using hc
      have ih' := ih hc'
      simp [lookupCtrl, List.find?_cons, beq_iff_eq, hcn] at ih' ⊢
      exact ih'

theorem lookup_update_other (l : List Control) (n m : String)
    (v : List String) (hnm : n ≠ m) :
    lookupCtrl (l.map (fun c =>
      if c.name == n then { c with value := v } else c)) m =
      lookupCtrl l m := by
  induction l with
  | nil => rfl
  | cons c cs ih =>
    by_cases hcn : c.name = n
    · have hm : c.name ≠ m := by rw [hcn]; exact hnm
      have ih' := ih
      simp [lookupCtrl, List.find?_cons, beq_iff_eq, hcn, hm, hnm] at ih' ⊢
      exact ih'
    · by_cases hm : c.name = m
      · simp [lookupCtrl, List.find?_cons, beq_iff_eq, hcn, hm, Ne.symm hnm]
      · have ih' := ih
        simp [lookupCtrl, List.find?_cons, beq_iff_eq, hcn, hm] at ih' ⊢
        exact ih'

/-! ## Event-count lemmas for the navigation chain -/

theorem countP_openHome (site : Site) (st : BState) (p : Ev → Bool)
    (hop : p .opened = false) :
    ((openHome site st).events).countP p = st.events.countP p := by
  simp [openHome, countP_snoc, hop]

theorem countP_followLink (site : Site) (st : BState) (t : String)
    (p : Ev → Bool) (hfol : p (.followed t) = false) :
    ((followLink site st t).1.events).countP p = st.events.countP p := by
  cases hc : curPage site st with
  | none => simp [followLink, hc]
  | some pg =>
    cases hl : pg.links.lookup t with
    | none => simp [followLink, hc, hl]
    | some i => simp [followLink, hc, hl, countP_snoc, hfol]

theorem countP_login_pres (acct : AccountCfg) (site : Site) (st : BState)
    (p : Ev → Bool) (hop : p .opened = false)
    (hsub : ∀ cs, p (.submitted "loginform" cs) = false) :
    ((login acct site st).1.events).countP p = st.events.countP p := by
  simp only [login]
  split
  · simpa using countP_openHome site st p hop
  · rename_i f hf
    split
    · simpa using countP_openHome site st p hop
    · rename_i f1 h1
      split
      · simpa using countP_openHome site st p hop
      · rename_i f2 h2
        have hn : f2.name = "loginform" := by
          rw [(setControl_parts _ _ _ _ h2).1, (setControl_parts _ _ _ _ h1).1,
            selectForm_name _ _ _ _ hf]
        split <;>
          simp [submit, countP_snoc, hn, hsub, countP_openHome site st p hop]

theorem countP_login_le (acct : AccountCfg) (site : Site) (st : BState)
    (p : Ev → Bool) (hop : p .opened = false) :
    ((login acct site st).1.events).countP p ≤ st.events.countP p + 1 := by
  have hbase := countP_openHome site st p hop
  simp only [login]
  split
  · simpa using Nat.le_succ_of_le (le_of_eq hbase)
  · rename_i f hf
    split
    · simpa using Nat.le_succ_of_le (le_of_eq hbase)
    · rename_i f1 h1
      split
      · simpa using Nat.le_succ_of_le (le_of_eq hbase)
      · rename_i f2 h2
        split <;>
          · simp [submit, countP_snoc, hbase, List.countP_cons]
            split <;> omega

theorem countP_getMyAccount_pres (acct : AccountCfg) (site : Site)
    (st : BState) (p : Ev → Bool) (hop : p .opened = false)
    (hfol : ∀ t, p (.followed t) = false)
    (hsub : ∀ cs, p (.submitted "loginform" cs) = false) :
    ((getMyAccount acct site st).1.events).countP p = st.events.countP p := by
  cases hlog : logged_in site st with
  | true => simp [getMyAccount, hlog, countP_followLink site st "My Account" p (hfol _)]
  | false =>
    rcases hL : login acct site st with ⟨st1, e⟩
    have hlp : st1.events.countP p = st.events.countP p := by
      have h := countP_login_pres acct site st p hop hsub
      rw [hL] at h
      exact h
    cases e with
    | some err => simp [getMyAccount, hlog, hL, hlp]
    | none =>
      simp [getMyAccount, hlog, hL,
        countP_followLink site st1 "My Account" p (hfol _), hlp]

theorem countP_getMyAccount_le (acct : AccountCfg) (site : Site)
    (st : BState) (p : Ev → Bool) (hop : p .opened = false)
    (hfol : ∀ t, p (.followed t) = false) :
    ((getMyAccount acct site st).1.events).countP p ≤
      st.events.countP p + 1 := by
  cases hlog : logged_in site st with
  | true =>
    have := countP_followLink site st "My Account" p (hfol _)
    simp [getMyAccount, hlog, this]
  | false =>
    rcases hL : login acct site st with ⟨st1, e⟩
    have hlp : st1.events.countP p ≤ st.events.countP p + 1 := by
      have h := countP_login_le acct site st p hop
      rw [hL] at h
      exact h
    cases e with
    | some err => simp [getMyAccount, hlog, hL]; omega
    | none =>
      simp [getMyAccount, hlog, hL,
        countP_followLink site st1 "My Account" p (hfol _)]
      omega

theorem countP_getRMM_pres (acct : AccountCfg) (site : Site) (st : BState)
    (p : Ev → Bool) (hop : p .opened = false)
    (hfol : ∀ t, p (.followed t) = false)
    (hsub : ∀ cs, p (.submitted "loginform" cs) = false) :
    ((getRenewMyMaterials acct site st).1.events).countP p =
      st.events.countP p := by
  rcases hM : getMyAccount acct site st with ⟨st1, e⟩
  have hlp : st1.events.countP p = st.events.countP p := by
    have h := countP_getMyAccount_pres acct site st p hop hfol hsub
    rw [hM] at h
    exact h
  cases e with
  | some err => simp [getRenewMyMaterials, hM, hlp]
  | none =>
    simp [getRenewMyMaterials, hM,
      countP_followLink site st1 "Renew My Materials" p (hfol _), hlp]

theorem countP_getRMM_le (acct : AccountCfg) (site : Site) (st : BState)
    (p : Ev → Bool) (hop : p .opened = false)
    (hfol : ∀ t, p (.followed t) = false) :
    ((getRenewMyMaterials acct site st).1.events).countP p ≤
      st.events.countP p + 1 := by
  rcases hM : getMyAccount acct site st with ⟨st1, e⟩
  have hlp : st1.events.countP p ≤ st.events.countP p + 1 := by
    have h := countP_getMyAccount_le acct site st p hop hfol
    rw [hM] at h
    exact h
  cases e with
  | some err => simp [getRenewMyMaterials, hM]; omega
  | none =>
    simp [getRenewMyMaterials, hM,
      countP_followLink site st1 "Renew My Materials" p (hfol _)]
    omega

theorem countP_getSummary_le (acct : AccountCfg) (site : Site) (st : BState)
    (p : Ev → Bool) (hop : p .opened = false)
    (hfol : ∀ t, p (.followed t) = false) :
    ((getAccountSummary acct site st).1.events).countP p ≤
      st.events.countP p + 1 := by
  rcases hM : getMyAccount acct site st with ⟨st1, e⟩
  have hlp : st1.events.countP p ≤ st.events.countP p + 1 := by
    have h := countP_getMyAccount_le acct site st p hop hfol
    rw [hM] at h
    exact h
  have hrev : ((getReviewMyAccount acct site st).1.events).countP p ≤
      st.events.countP p + 1 := by
    cases e with
    | some err => simp [getReviewMyAccount, hM]; omega
    | none =>
      simp [getReviewMyAccount, hM,
        countP_followLink site st1 "Review My Account" p (hfol _)]
      omega
  rcases hR : getReviewMyAccount acct site st with ⟨st2, e2⟩
  have hrev2 : st2.events.countP p ≤ st.events.countP p + 1 := by
    rw [hR] at hrev
    simpa using hrev
  cases e2 with
  | some err => simp [getAccountSummary, hR]; omega
  | none =>
    simp [getAccountSummary, hR,
      countP_followLink site st2 "Account Summary" p (hfol _)]
    omega

/-! ## C7: login submits once and checks the marker -/

theorem login_unfold (acct : AccountCfg) (site : Site) (st : BState)
    (f f1 f2 : Form)
    (hf : selectForm site (openHome site st) "loginform" = .ok f)
    (h1 : f.setControl "user_id" [acct.userid] = some f1)
    (h2 : f1.setControl "password" [acct.password] = some f2) :
    login acct site st =
      (submit site (openHome site st) f2,
       if logged_in site (submit site (openHome site st) f2) then none
       else some .authFailed) := by
  simp only [login, hf, h1, h2]
  split <;> rename_i h <;> simp [h]

/-- C7: when the homepage carries a `loginform` with `user_id` and
`password` controls, `login` opens the homepage, fills both fields, submits
the login form exactly once (the event log grows by exactly `opened` then
one `submitted loginform`, so the failed attempt is not retried), and it
raises `AuthenticationError` if and only if the greeting marker is still
absent from the post-submission response. -/
theorem c7_login_single_submit (acct : AccountCfg) (site : Site)
    (st : BState) (f : Form)
    (hf : selectForm site (openHome site st) "loginform" = .ok f)
    (hu : hasCtrl f "user_id" = true) (hp : hasCtrl f "password" = true) :
    ∃ cs,
      (login acct site st).1.events =
          st.events ++ [.opened, .submitted "loginform" cs]
      ∧ lookupCtrl cs "user_id" = some [acct.userid]
      ∧ lookupCtrl cs "password" = some [acct.password]
      ∧ ((login acct site st).2 = some .authFailed ↔
          logged_in site (login acct site st).1 = false)
      ∧ ((login acct site st).2 = none ↔
          logged_in site (login acct site st).1 = true) := by
  obtain ⟨f1, h1⟩ : ∃ f1, f.setControl "user_id" [acct.userid] = some f1 := by
    simp [Form.setControl, hu]
  have hp1 : hasCtrl f1 "password" = true := by
    rw [setControl_hasCtrl f "user_id" [acct.userid] f1 h1 "password"]
    exact hp
  obtain ⟨f2, h2⟩ : ∃ f2, f1.setControl "password" [acct.password] = some f2 := by
    simp [Form.setControl, hp1]
  have hL := login_unfold acct site st f f1 f2 hf h1 h2
  have hfname : f.name = "loginform" := selectForm_name _ _ _ _ hf
  have hf2name : f2.name = "loginform" := by
    rw [(setControl_parts _ _ _ _ h2).1, (setControl_parts _ _ _ _ h1).1, hfname]
  have hc1 := (setControl_parts _ _ _ _ h1).2.2
  have hc2 := (setControl_parts _ _ _ _ h2).2.2
  refine ⟨f2.controls, ?_, ?_, ?_, ?_, ?_⟩
  · rw [hL]
    simp [submit, openHome, hf2name]
  · rw [hc2, lookup_update_other _ _ _ _ (by decide), hc1]
    exact lookup_update _ _ _ hu
  · rw [hc2]
    exact lookup_update _ _ _ hp1
  · rw [hL]
    cases hlog : logged_in site (submit site (openHome site st) f2) <;>
      simp [hlog]
  · rw [hL]
    cases hlog : logged_in site (submit site (openHome site st) f2) <;>
      simp [hlog]

/-! ## Concrete demonstration site for the session theorems -/

/-- Demo credentials. -/
def wAcct : AccountCfg := ⟨"patron1", "pin1"⟩

/-- The fresh browser state (no response fetched yet). -/
def st0 : BState := ⟨none, []⟩

/-- The demo login form: submits to page 1. -/
def wLoginForm : Form :=
  ⟨"loginform", 1, [⟨"user_id", [], false⟩, ⟨"password", [], false⟩]⟩

/-- The demo renewal form: submits to page 4. -/
def wRenewForm : Form :=
  ⟨"renewitems", 4, [⟨"RENEW^AAA", [], false⟩, ⟨"selection_type", [], false⟩]⟩

/-- The renewal-status page document (an `h3` heading). -/
def wStatusDoc : Node :=
  .elem "root" [] [.elem "h3" [] [.text " Renewal status "]]

/-- A working demo site covering the whole navigation graph. -/
def wSite : Site :=
  { pages :=
      [⟨"Please log in", .text "", [wLoginForm], []⟩,
       ⟨"Welcome, John", .text "", [], [("My Account", 2)]⟩,
       ⟨"Welcome, John", .text "", [],
         [("Renew My Materials", 3), ("Review My Account", 5)]⟩,
       ⟨"Welcome, John", itemsDocDemo, [wRenewForm], []⟩,
       ⟨"Welcome, John", wStatusDoc, [], []⟩,
       ⟨"Welcome, John", .text "", [], [("Account Summary", 6)]⟩,
       ⟨"Welcome, John", finesDocOf "You owe$12.50", [], []⟩],
    home := 0 }

/-- C7 witness: the login contract at the concrete demo site. -/
theorem c7_login_single_submit_witness :
    (selectForm wSite (openHome wSite st0) "loginform" = .ok wLoginForm)
    ∧ ∃ cs,
        (login wAcct wSite st0).1.events =
            st0.events ++ [.opened, .submitted "loginform" cs]
        ∧ lookupCtrl cs "user_id" = some [wAcct.userid]
        ∧ lookupCtrl cs "password" = some [wAcct.password]
        ∧ ((login wAcct wSite st0).2 = some .authFailed ↔
            logged_in wSite (login wAcct wSite st0).1 = false)
        ∧ ((login wAcct wSite st0).2 = none ↔
            logged_in wSite (login wAcct wSite st0).1 = true) :=
  ⟨by decide, c7_login_single_submit wAcct wSite st0 wLoginForm (by decide)
    (by decide) (by decide)⟩

/-! ## C8: renew-all sets the sentinel or fails without submitting -/

/-- C8: once navigation has reached the renewal page and the `renewitems`
form is selected, a form without a `selection_type` control makes
`renew_all` raise the control-not-found error naming `selection_type` with
no renewal-form submission at all; with the control present, the field is
set to the sentinel `['all']` and the form is submitted exactly once. -/
theorem c8_renew_all (acct : AccountCfg) (site : Site) (st st1 : BState)
    (f : Form)
    (hn : getRenewMyMaterials acct site st = (st1, none))
    (hf : selectForm site st1 "renewitems" = .ok f) :
    (hasCtrl f "selection_type" = false →
       renewAllOp acct site st =
           (st1, .error (.controlNotFound "selection_type"))
       ∧ renewSubmits st1.events = renewSubmits st.events)
    ∧ (∀ f1, f.setControl "selection_type" ["all"] = some f1 →
       renewAllOp acct site st =
           (submit site st1 f1, renewalStatus site (submit site st1 f1))
       ∧ lookupCtrl f1.controls "selection_type" = some ["all"]
       ∧ renewSubmits (submit site st1 f1).events =
           renewSubmits st.events + 1) := by
  have hpres : renewSubmits st1.events = renewSubmits st.events := by
    have h := countP_getRMM_pres acct site st isRenewSubmit rfl (fun t => rfl)
      (fun cs => rfl)
    rw [hn] at h
    exact h
  have hpres' : st1.events.countP isRenewSubmit =
      st.events.countP isRenewSubmit := hpres
  constructor
  · intro hmiss
    have hnone : f.setControl "selection_type" ["all"] = none := by
      simp [Form.setControl, hmiss]
    exact ⟨by simp only [renewAllOp, hn, hf, hnone], hpres⟩
  · intro f1 h1
    have hname : f1.name = "renewitems" := by
      rw [(setControl_parts _ _ _ _ h1).1, selectForm_name _ _ _ _ hf]
    refine ⟨by simp only [renewAllOp, hn, hf, h1], ?_, ?_⟩
    · rw [(setControl_parts _ _ _ _ h1).2.2]
      exact lookup_update _ _ _ (setControl_some_hasCtrl _ _ _ _ h1)
    · simp [submit, renewSubmits, countP_snoc, hname, isRenewSubmit, hpres']

/-- The demo renewal form with no `selection_type` control. -/
def wRenewFormNoSel : Form :=
  ⟨"renewitems", 4, [⟨"RENEW^AAA", [], false⟩]⟩

/-- The demo site whose renewal form lacks `selection_type`. -/
def wSiteNoSel : Site :=
  { pages :=
      [⟨"Please log in", .text "", [wLoginForm], []⟩,
       ⟨"Welcome, John", .text "", [], [("My Account", 2)]⟩,
       ⟨"Welcome, John", .text "", [],
         [("Renew My Materials", 3), ("Review My Account", 5)]⟩,
       ⟨"Welcome, John", itemsDocDemo, [wRenewFormNoSel], []⟩,
       ⟨"Welcome, John", wStatusDoc, [], []⟩,
       ⟨"Welcome, John", .text "", [], [("Account Summary", 6)]⟩,
       ⟨"Welcome, John", finesDocOf "You owe$12.50", [], []⟩],
    home := 0 }

/-- C8 witness: `renew_all` against the site missing `selection_type`. -/
theorem c8_renew_all_witness :
    renewAllOp wAcct wSiteNoSel st0 =
        ((getRenewMyMaterials wAcct wSiteNoSel st0).1,
          .error (.controlNotFound "selection_type"))
    ∧ renewSubmits (getRenewMyMaterials wAcct wSiteNoSel st0).1.events =
        renewSubmits st0.events :=
  (c8_renew_all wAcct wSiteNoSel st0
    (getRenewMyMaterials wAcct wSiteNoSel st0).1 wRenewFormNoSel
    (by decide) (by decide)).1 (by decide)

/-! ## C4: renew(items) is all-or-nothing -/

theorem selectToks_name : ∀ (ts : List String) (f f1 : Form),
    selectToks f ts = .ok f1 → f1.name = f.name := by
  intro ts
  induction ts with
  | nil =>
    intro f f1 h
    injection h with h
    subst h
    rfl
  | cons t ts ih =>
    intro f f1 h
    simp only [selectToks] at h
    split at h
    · exact Except.noConfusion h
    · rename_i f2 hc
      rw [ih f2 f1 h, (selectControl_parts _ _ _ hc).1]

theorem selectToks_first_missing : ∀ (ts : List String) (f : Form),
    ts.any (fun t => !(hasCtrl f t)) = true →
    ∃ t, hasCtrl f t = false ∧ t ∈ ts
      ∧ selectToks f ts = .error (.controlNotFound t) := by
  intro ts
  induction ts with
  | nil =>
    intro f h
    simp at h
  | cons t ts ih =>
    intro f h
    cases hc : hasCtrl f t with
    | false =>
      refine ⟨t, hc, List.mem_cons_self t ts, ?_⟩
      simp [selectToks, selectControl_none f t hc]
    | true =>
      obtain ⟨f1, h1⟩ : ∃ f1, f.selectControl t = some f1 := by
        simp [Form.selectControl, hc]
      have hEq : ∀ u, hasCtrl f1 u = hasCtrl f u :=
        selectControl_hasCtrl f t f1 h1
      have h' : ts.any (fun u => !(hasCtrl f1 u)) = true := by
        have hts : ts.any (fun u => !(hasCtrl f u)) = true := by
          simpa [List.any_cons, hc] using h
        calc ts.any (fun u => !(hasCtrl f1 u))
            = ts.any (fun u => !(hasCtrl f u)) := by
              congr 1
              funext u
              rw [hEq u]
          _ = true := hts
      obtain ⟨u, hu1, hu2, hu3⟩ := ih f1 h'
      refine ⟨u, ?_, List.mem_cons_of_mem _ hu2, ?_⟩
      · rw [← hEq u]
        exact hu1
      · simp [selectToks, h1, hu3]

/-- C4: if any requested item's renewal token has no control on the
`renewitems` form, `renew(items)` raises the control-not-found error naming
the (first) missing token, and no renewal-form submission happens at all,
so no item of the batch — including those whose controls do exist — is
renewed. -/
theorem c4_renew_atomic (acct : AccountCfg) (site : Site)
    (st st1 : BState) (f : Form) (items : List Item)
    (hn : getRenewMyMaterials acct site st = (st1, none))
    (hf : selectForm site st1 "renewitems" = .ok f)
    (hmiss : (items.map Item.renew_token).any (fun t => !(hasCtrl f t)) = true) :
    ∃ t, hasCtrl f t = false ∧ t ∈ items.map Item.renew_token
      ∧ renewOp acct site st items = (st1, .error (.controlNotFound t))
      ∧ renewSubmits st1.events = renewSubmits st.events := by
  have hpres : renewSubmits st1.events = renewSubmits st.events := by
    have h := countP_getRMM_pres acct site st isRenewSubmit rfl (fun t => rfl)
      (fun cs => rfl)
    rw [hn] at h
    exact h
  obtain ⟨t, h1, h2, h3⟩ :=
    selectToks_first_missing (items.map Item.renew_token) f hmiss
  exact ⟨t, h1, h2, by simp only [renewOp, hn, hf, h3], hpres⟩

/-- C4 witness: renewing a stale item against the demo site. -/
theorem c4_renew_atomic_witness :
    ∃ t, hasCtrl wRenewForm t = false
      ∧ t ∈ [Item.init "RENEW^BBB"].map Item.renew_token
      ∧ renewOp wAcct wSite st0 [Item.init "RENEW^BBB"] =
          ((getRenewMyMaterials wAcct wSite st0).1,
            .error (.controlNotFound t))
      ∧ renewSubmits (getRenewMyMaterials wAcct wSite st0).1.events =
          renewSubmits st0.events :=
  c4_renew_atomic wAcct wSite st0
    (getRenewMyMaterials wAcct wSite st0).1 wRenewForm
    [Item.init "RENEW^BBB"] (by decide) (by decide) (by decide)

/-! ## C9: at most one re-authentication per operation -/

theorem login_none_shape (acct : AccountCfg) (site : Site) (st : BState)
    (h : (login acct site st).2 = none) :
    ∃ f2 : Form, f2.name = "loginform" ∧
      (login acct site st).1 = submit site (openHome site st) f2 := by
  simp only [login] at h ⊢
  split at h
  · simp at h
  · rename_i f hf
    split at h
    · simp at h
    · rename_i f1 h1
      split at h
      · simp at h
      · rename_i f2 h2
        refine ⟨f2, ?_, ?_⟩
        · rw [(setControl_parts _ _ _ _ h2).1, (setControl_parts _ _ _ _ h1).1,
            selectForm_name _ _ _ _ hf]
        · split <;> rfl

theorem loginSubmits_login_succ (acct : AccountCfg) (site : Site)
    (st : BState) (h : (login acct site st).2 = none) :
    loginSubmits (login acct site st).1.events = loginSubmits st.events + 1 := by
  obtain ⟨f2, hname, hshape⟩ := login_none_shape acct site st h
  rw [hshape]
  simp [submit, loginSubmits, countP_snoc, hname, isLoginSubmit,
    countP_openHome site st isLoginSubmit rfl]

theorem loginSubmits_getMyAccount_succ (acct : AccountCfg) (site : Site)
    (st : BState) (hlog : logged_in site st = false)
    (h : (login acct site st).2 = none) :
    loginSubmits (getMyAccount acct site st).1.events =
      loginSubmits st.events + 1 := by
  have hs := loginSubmits_login_succ acct site st h
  rcases hL : login acct site st with ⟨st1, e⟩
  rw [hL] at h
  have he : e = none := by simpa using h
  subst he
  have hs' : st1.events.countP isLoginSubmit =
      st.events.countP isLoginSubmit + 1 := by
    rw [hL] at hs
    simpa [loginSubmits] using hs
  simp [getMyAccount, hlog, hL, loginSubmits,
    countP_followLink site st1 "My Account" isLoginSubmit rfl, hs']

theorem loginSubmits_getRMM_succ (acct : AccountCfg) (site : Site)
    (st : BState) (hlog : logged_in site st = false)
    (h : (login acct site st).2 = none) :
    loginSubmits (getRenewMyMaterials acct site st).1.events =
      loginSubmits st.events + 1 := by
  have hs := loginSubmits_getMyAccount_succ acct site st hlog h
  rcases hM : getMyAccount acct site st with ⟨st1, e⟩
  have hs' : st1.events.countP isLoginSubmit =
      st.events.countP isLoginSubmit + 1 := by
    rw [hM] at hs
    simpa [loginSubmits] using hs
  cases e with
  | some err => simp [getRenewMyMaterials, hM, loginSubmits, hs']
  | none =>
    simp [getRenewMyMaterials, hM, loginSubmits,
      countP_followLink site st1 "Renew My Materials" isLoginSubmit rfl, hs']

theorem loginSubmits_getSummary_succ (acct : AccountCfg) (site : Site)
    (st : BState) (hlog : logged_in site st = false)
    (h : (login acct site st).2 = none) :
    loginSubmits (getAccountSummary acct site st).1.events =
      loginSubmits st.events + 1 := by
  have hs := loginSubmits_getMyAccount_succ acct site st hlog h
  rcases hM : getMyAccount acct site st with ⟨st1, e⟩
  have hs' : st1.events.countP isLoginSubmit =
      st.events.countP isLoginSubmit + 1 := by
    rw [hM] at hs
    simpa [loginSubmits] using hs
  have hrev : (getReviewMyAccount acct site st).1.events.countP isLoginSubmit =
      st.events.countP isLoginSubmit + 1 := by
    cases e with
    | some err => simp [getReviewMyAccount, hM, hs']
    | none =>
      simp [getReviewMyAccount, hM,
        countP_followLink site st1 "Review My Account" isLoginSubmit rfl, hs']
  rcases hR : getReviewMyAccount acct site st with ⟨st2, e2⟩
  have hrev' : st2.events.countP isLoginSubmit =
      st.events.countP isLoginSubmit + 1 := by
    rw [hR] at hrev
    simpa using hrev
  cases e2 with
  | some err => simp [getAccountSummary, hR, loginSubmits, hrev']
  | none =>
    simp [getAccountSummary, hR, loginSubmits,
      countP_followLink site st2 "Account Summary" isLoginSubmit rfl, hrev']

theorem itemsOp_fst (acct : AccountCfg) (site : Site) (st : BState) :
    (itemsOp acct site st).1 = (getRenewMyMaterials acct site st).1 := by
  rcases hG : getRenewMyMaterials acct site st with ⟨st1, e⟩
  cases e with
  | some err => simp [itemsOp, hG]
  | none =>
    cases hs : soupOf site st1 with
    | none => simp [itemsOp, hG, hs]
    | some doc =>
      cases hp : parseItems doc with
      | none => simp [itemsOp, hG, hs, hp]
      | some its => simp [itemsOp, hG, hs, hp]

theorem finesOp_fst (acct : AccountCfg) (site : Site) (st : BState) :
    (finesOp acct site st).1 = (getAccountSummary acct site st).1 := by
  rcases hG : getAccountSummary acct site st with ⟨st1, e⟩
  cases e with
  | some err => simp [finesOp, hG]
  | none =>
    cases hs : soupOf site st1 with
    | none => simp [finesOp, hG, hs]
    | some doc =>
      cases hp : parseFines doc with
      | none => simp [finesOp, hG, hs, hp]
      | some q => simp [finesOp, hG, hs, hp]

theorem loginSubmits_renewOp (acct : AccountCfg) (site : Site) (st : BState)
    (items : List Item) :
    loginSubmits (renewOp acct site st items).1.events =
      loginSubmits (getRenewMyMaterials acct site st).1.events := by
  rcases hM : getRenewMyMaterials acct site st with ⟨st1, e⟩
  cases e with
  | some err => simp [renewOp, hM]
  | none =>
    cases hsel : selectForm site st1 "renewitems" with
    | error e2 => simp [renewOp, hM, hsel]
    | ok f =>
      cases htk : selectToks f (items.map Item.renew_token) with
      | error e2 => simp [renewOp, hM, hsel, htk]
      | ok f1 =>
        have hname : f1.name = "renewitems" := by
          rw [selectToks_name _ _ _ htk, selectForm_name _ _ _ _ hsel]
        simp [renewOp, hM, hsel, htk, submit, loginSubmits, countP_snoc,
          hname, isLoginSubmit]

theorem loginSubmits_renewAllOp (acct : AccountCfg) (site : Site)
    (st : BState) :
    loginSubmits (renewAllOp acct site st).1.events =
      loginSubmits (getRenewMyMaterials acct site st).1.events := by
  rcases hM : getRenewMyMaterials acct site st with ⟨st1, e⟩
  cases e with
  | some err => simp [renewAllOp, hM]
  | none =>
    cases hsel : selectForm site st1 "renewitems" with
    | error e2 => simp [renewAllOp, hM, hsel]
    | ok f =>
      cases hset : f.setControl "selection_type" ["all"] with
      | none => simp [renewAllOp, hM, hsel, hset]
      | some f1 =>
        have hname : f1.name = "renewitems" := by
          rw [(setControl_parts _ _ _ _ hset).1, selectForm_name _ _ _ _ hsel]
        simp [renewAllOp, hM, hsel, hset, submit, loginSubmits, countP_snoc,
          hname, isLoginSubmit]

theorem getMyAccount_login_err (acct : AccountCfg) (site : Site)
    (st : BState) (e : Err) (hlog : logged_in site st = false)
    (h : (login acct site st).2 = some e) :
    getMyAccount acct site st = ((login acct site st).1, some e) := by
  rcases hL : login acct site st with ⟨st1, e'⟩
  rw [hL] at h
  have he : e' = some e := by simpa using h
  subst he
  simp [getMyAccount, hlog, hL]

theorem getRMM_login_err (acct : AccountCfg) (site : Site) (st : BState)
    (e : Err) (hlog : logged_in site st = false)
    (h : (login acct site st).2 = some e) :
    getRenewMyMaterials acct site st = ((login acct site st).1, some e) := by
  have h1 := getMyAccount_login_err acct site st e hlog h
  simp [getRenewMyMaterials, h1]

theorem getSummary_login_err (acct : AccountCfg) (site : Site) (st : BState)
    (e : Err) (hlog : logged_in site st = false)
    (h : (login acct site st).2 = some e) :
    getAccountSummary acct site st = ((login acct site st).1, some e) := by
  have h1 := getMyAccount_login_err acct site st e hlog h
  have h2 : getReviewMyAccount acct site st = ((login acct site st).1, some e) := by
    simp [getReviewMyAccount, h1]
  simp [getAccountSummary, h2]

/-- C9: every public operation (`items`, `fines`, `renew`, `renew_all`)
performs at most one login-form submission beyond those already in the log;
when the session is not logged in and the login attempt goes through, it
submits the login form exactly once; and when the single attempt fails with
the authentication error, the whole operation gives up with that very error
instead of retrying. -/
theorem c9_single_reauth (acct : AccountCfg) (site : Site) (st : BState)
    (items : List Item) :
    (loginSubmits (itemsOp acct site st).1.events ≤ loginSubmits st.events + 1
     ∧ loginSubmits (finesOp acct site st).1.events ≤ loginSubmits st.events + 1
     ∧ loginSubmits (renewOp acct site st items).1.events ≤
         loginSubmits st.events + 1
     ∧ loginSubmits (renewAllOp acct site st).1.events ≤
         loginSubmits st.events + 1)
    ∧ (logged_in site st = false → (login acct site st).2 = none →
        loginSubmits (itemsOp acct site st).1.events = loginSubmits st.events + 1
        ∧ loginSubmits (finesOp acct site st).1.events = loginSubmits st.events + 1
        ∧ loginSubmits (renewOp acct site st items).1.events =
            loginSubmits st.events + 1
        ∧ loginSubmits (renewAllOp acct site st).1.events =
            loginSubmits st.events + 1)
    ∧ (logged_in site st = false →
        (login acct site st).2 = some .authFailed →
        itemsOp acct site st = ((login acct site st).1, .error .authFailed)
        ∧ finesOp acct site st = ((login acct site st).1, .error .authFailed)
        ∧ renewOp acct site st items = ((login acct site st).1, .error .authFailed)
        ∧ renewAllOp acct site st = ((login acct site st).1, .error .authFailed)) := by
  have hGle : loginSubmits (getRenewMyMaterials acct site st).1.events ≤
      loginSubmits st.events + 1 :=
    countP_getRMM_le acct site st isLoginSubmit rfl (fun t => rfl)
  have hSle : loginSubmits (getAccountSummary acct site st).1.events ≤
      loginSubmits st.events + 1 :=
    countP_getSummary_le acct site st isLoginSubmit rfl (fun t => rfl)
  refine ⟨⟨?_, ?_, ?_, ?_⟩, ?_, ?_⟩
  · rw [itemsOp_fst]
    exact hGle
  · rw [finesOp_fst]
    exact hSle
  · rw [loginSubmits_renewOp]
    exact hGle
  · rw [loginSubmits_renewAllOp]
    exact hGle
  · intro hlog h
    refine ⟨?_, ?_, ?_, ?_⟩
    · rw [itemsOp_fst]
      exact loginSubmits_getRMM_succ acct site st hlog h
    · rw [finesOp_fst]
      exact loginSubmits_getSummary_succ acct site st hlog h
    · rw [loginSubmits_renewOp]
      exact loginSubmits_getRMM_succ acct site st hlog h
    · rw [loginSubmits_renewAllOp]
      exact loginSubmits_getRMM_succ acct site st hlog h
  · intro hlog h
    have hG := getRMM_login_err acct site st .authFailed hlog h
    have hS := getSummary_login_err acct site st .authFailed hlog h
    exact ⟨by simp [itemsOp, hG], by simp [finesOp, hS],
      by simp [renewOp, hG], by simp [renewAllOp, hG]⟩

/-- A demo site whose login submission never yields the greeting. -/
def wBadSite : Site :=
  { pages :=
      [⟨"Please log in", .text "", [wLoginForm], []⟩,
       ⟨"Login incorrect", .text "", [], []⟩],
    home := 0 }

/-- C9 witness: on the failing-login site every operation surfaces the
authentication error of the single attempt. -/
theorem c9_single_reauth_witness :
    (logged_in wBadSite st0 = false)
    ∧ ((login wAcct wBadSite st0).2 = some .authFailed)
    ∧ itemsOp wAcct wBadSite st0 =
        ((login wAcct wBadSite st0).1, .error .authFailed)
    ∧ finesOp wAcct wBadSite st0 =
        ((login wAcct wBadSite st0).1, .error .authFailed)
    ∧ renewOp wAcct wBadSite st0 [] =
        ((login wAcct wBadSite st0).1, .error .authFailed)
    ∧ renewAllOp wAcct wBadSite st0 =
        ((login wAcct wBadSite st0).1, .error .authFailed) := by
  have h := (c9_single_reauth wAcct wBadSite st0 []).2.2 (by decide) (by decide)
  exact ⟨by decide, by decide, h.1, h.2.1, h.2.2.1, h.2.2.2⟩

end Sirsi
